import Mathlib

/-!
Shallow embedding of `duneanaobj/StandardRecord/SRTrueInteraction.h`:
the `caf::SRTrueInteraction` record, its two enumerated vocabularies
(`caf::Generator`, `caf::ScatteringMode`), and the leaf value types it
composes.  C++ `float` is modelled as an IEEE-754 binary32 bit pattern
(a natural number below 2^32); C++ `int` as `Int`; C++ `unsigned int`
as `Nat`; `std::vector` as `List`; `std::string` as `String`.
-/

/-- IEEE-754 binary32 value, represented by its 32-bit pattern.
Models the C++ `float` type used throughout `SRTrueInteraction.h`. -/
structure Float32 where
  bits : Nat
deriving DecidableEq

namespace Float32

/-- Exponent field: bits 23..30 of the pattern. -/
def exponentField (f : Float32) : Nat := f.bits / 2 ^ 23 % 2 ^ 8

/-- Mantissa (trailing significand) field: bits 0..22 of the pattern. -/
def mantissaField (f : Float32) : Nat := f.bits % 2 ^ 23

/-- A binary32 pattern is a NaN iff the exponent field is all ones and
the mantissa field is nonzero (IEEE 754 classification, as used by
`std::isnan`). -/
def isNaN (f : Float32) : Bool :=
  exponentField f == 255 && mantissaField f != 0

/-- A binary32 pattern is a zero (of either sign) iff every bit below
the sign bit is clear. -/
def isZero (f : Float32) : Bool := f.bits % 2 ^ 31 == 0

/-- IEEE-754 equality, the semantics of the C++ `==` operator on
`float`: any comparison involving a NaN is false; positive and
negative zero compare equal; otherwise patterns compare bitwise. -/
def beq (a b : Float32) : Bool :=
  if isNaN a || isNaN b then false
  else if isZero a && isZero b then true
  else a.bits == b.bits

/-- The bit pattern produced by `std::numeric_limits<float>::signaling_NaN()`
on the platforms this code targets: exponent all ones, quiet bit clear,
top payload bit set (0x7FA00000). -/
def signalingNaN : Float32 := ⟨0x7FA00000⟩

end Float32

namespace caf

/-- Known generators of neutrino interactions, from the `enum class
Generator` in `SRTrueInteraction.h`. -/
inductive Generator
  | kUnknownGenerator
  | kGENIE
  | kGIBUU
  | kNEUT

/-- The integer discriminant of each `Generator` tag, exactly as written
in the C++ enumerator list. -/
def Generator.toInt : Generator → Int
  | .kUnknownGenerator => 0
  | .kGENIE            => 1
  | .kGIBUU            => 2
  | .kNEUT             => 3

/-- Neutrino interaction categories, from the `enum class ScatteringMode`
in `SRTrueInteraction.h`. -/
inductive ScatteringMode
  | kUnknownMode
  | kQE
  | kRes
  | kDIS
  | kCoh
  | kCohElastic
  | kElectronScattering
  | kIMDAnnihilation
  | kInverseBetaDecay
  | kGlashowResonance
  | kAMNuGamma
  | kMEC
  | kDiffractive
  | kEM
  | kWeakMix

/-- The integer discriminant of each `ScatteringMode` tag, exactly as
written in the C++ enumerator list. -/
def ScatteringMode.toInt : ScatteringMode → Int
  | .kUnknownMode        => -1
  | .kQE                 => 0
  | .kRes                => 1
  | .kDIS                => 2
  | .kCoh                => 3
  | .kCohElastic         => 4
  | .kElectronScattering => 5
  | .kIMDAnnihilation    => 6
  | .kInverseBetaDecay   => 7
  | .kGlashowResonance   => 8
  | .kAMNuGamma          => 9
  | .kMEC                => 10
  | .kDiffractive        => 11
  | .kEM                 => 12
  | .kWeakMix            => 13

/-- Modelled from the spec: the 3-component spatial/momentum value type
(`SRVector3D.h` is not part of the given sources).  Per the spec it is
"three floating-point components ... no behavior required beyond
component storage". -/
structure SRVector3D where
  x : Float32 := Float32.signalingNaN
  y : Float32 := Float32.signalingNaN
  z : Float32 := Float32.signalingNaN

/-- Modelled from the spec: the Daughter-Particle Record
(`SRTrueParticle.h` is not part of the given sources).  Per the spec it
is "opaque from this core's perspective; the only contract this core
depends on is that it is default-constructible and independently
serializable, and that a sequence of it can be ordered and counted." -/
structure SRTrueParticle where
deriving DecidableEq

/-- The sentinel used for every floating-point field default in
`SRTrueInteraction`, translating
`static constexpr float NaN = std::numeric_limits<float>::signaling_NaN();`. -/
def NaN : Float32 := Float32.signalingNaN

/-- True interaction of probe particle with detector, translating the
`caf::SRTrueInteraction` class field by field; each field's default is
its C++ in-class initializer (nested class types are default
constructed). -/
structure SRTrueInteraction where
  isvtxcont : Bool := false
  pdg : Int := 0
  pdgorig : Int := 0
  iscc : Bool := false
  mode : Int := ScatteringMode.toInt ScatteringMode.kUnknownMode
  targetPDG : Int := 0
  hitnuc : Int := 0
  E : Float32 := NaN
  vtx : SRVector3D := {}
  momentum : SRVector3D := {}
  position : SRVector3D := {}
  time : Float32 := NaN
  bjorkenX : Float32 := NaN
  inelasticity : Float32 := NaN
  Q2 : Float32 := NaN
  q0 : Float32 := NaN
  modq : Float32 := NaN
  W : Float32 := NaN
  t : Float32 := NaN
  baseline : Float32 := NaN
  npiplus : Nat := 0
  npiminus : Nat := 0
  npizero : Nat := 0
  nproton : Nat := 0
  nneutron : Nat := 0
  ischarm : Bool := false
  isseaquark : Bool := false
  resnum : Int := 0
  xsec : Float32 := NaN
  genweight : Float32 := NaN
  prod_vtx : SRVector3D := {}
  parent_dcy_mom : SRVector3D := {}
  parent_dcy_mode : Int := -1
  parent_pdg : Int := 0
  parent_dcy_E : Float32 := NaN
  imp_weight : Float32 := NaN
  generator : Int := Generator.toInt Generator.kUnknownGenerator
  genVersion : List Nat := []
  genConfigString : String := ""
  nprim : Int := 0
  prim : List SRTrueParticle := []

/-- The record produced by the default constructor: every field at its
in-class initializer. -/
def defaultInteraction : SRTrueInteraction := {}

/-- Struck nucleon-nucleon pairs for MEC interactions, from the doc
comment on `hitnuc`: "For MEC, the codes are: 2000000200 --> nn,
2000000201 --> np, 2000000202 --> pp". -/
inductive NucleonPair
  | nn
  | np
  | pp

/-- The reserved `hitnuc` code of each struck nucleon-nucleon pair, from
the doc comment on `hitnuc`. -/
def mecPairCode : NucleonPair → Int
  | .nn => 2000000200
  | .np => 2000000201
  | .pp => 2000000202

/-- Interpretation of a `hitnuc` value as a nucleon pair: exactly the
three reserved codes documented on `hitnuc` decode to a pair; every
other integer is an ordinary single-particle code. -/
def mecPairOfCode (c : Int) : Option NucleonPair :=
  if c = 2000000200 then some .nn
  else if c = 2000000201 then some .np
  else if c = 2000000202 then some .pp
  else none

/-- A record whose declared daughter count disagrees with the length of
its daughter sequence: representable because the type performs no
validation. -/
def countMismatch : SRTrueInteraction :=
  { nprim := 2, prim := [{}] }

/-- A record whose scattering-mode field holds an integer outside the
documented tag range: representable because the underlying enum storage
is a plain integer. -/
def outOfRangeMode : SRTrueInteraction :=
  { mode := 99 }

/-- A record whose declared daughter count is negative: representable
because `nprim` is a signed integer. -/
def negPrimCount : SRTrueInteraction :=
  { nprim := -3 }

/-- The names of the public data members of `SRTrueInteraction`, in
declaration order. -/
inductive FieldName
  | isvtxcont | pdg | pdgorig | iscc | mode | targetPDG | hitnuc
  | E | vtx | momentum | position
  | time | bjorkenX | inelasticity | Q2 | q0 | modq | W | t | baseline
  | npiplus | npiminus | npizero | nproton | nneutron
  | ischarm | isseaquark | resnum | xsec | genweight
  | prod_vtx | parent_dcy_mom | parent_dcy_mode | parent_pdg
  | parent_dcy_E | imp_weight
  | generator | genVersion | genConfigString | nprim | prim
deriving DecidableEq

/-- A value for one public data member of `SRTrueInteraction`: the
constructor identifies the member, the argument carries a value of that
member's type. -/
inductive FieldValue
  | isvtxcont (v : Bool)
  | pdg (v : Int)
  | pdgorig (v : Int)
  | iscc (v : Bool)
  | mode (v : Int)
  | targetPDG (v : Int)
  | hitnuc (v : Int)
  | E (v : Float32)
  | vtx (v : SRVector3D)
  | momentum (v : SRVector3D)
  | position (v : SRVector3D)
  | time (v : Float32)
  | bjorkenX (v : Float32)
  | inelasticity (v : Float32)
  | Q2 (v : Float32)
  | q0 (v : Float32)
  | modq (v : Float32)
  | W (v : Float32)
  | t (v : Float32)
  | baseline (v : Float32)
  | npiplus (v : Nat)
  | npiminus (v : Nat)
  | npizero (v : Nat)
  | nproton (v : Nat)
  | nneutron (v : Nat)
  | ischarm (v : Bool)
  | isseaquark (v : Bool)
  | resnum (v : Int)
  | xsec (v : Float32)
  | genweight (v : Float32)
  | prod_vtx (v : SRVector3D)
  | parent_dcy_mom (v : SRVector3D)
  | parent_dcy_mode (v : Int)
  | parent_pdg (v : Int)
  | parent_dcy_E (v : Float32)
  | imp_weight (v : Float32)
  | generator (v : Int)
  | genVersion (v : List Nat)
  | genConfigString (v : String)
  | nprim (v : Int)
  | prim (v : List SRTrueParticle)

/-- The member a `FieldValue` is destined for. -/
def target : FieldValue → FieldName
  | .isvtxcont _ => .isvtxcont
  | .pdg _ => .pdg
  | .pdgorig _ => .pdgorig
  | .iscc _ => .iscc
  | .mode _ => .mode
  | .targetPDG _ => .targetPDG
  | .hitnuc _ => .hitnuc
  | .E _ => .E
  | .vtx _ => .vtx
  | .momentum _ => .momentum
  | .position _ => .position
  | .time _ => .time
  | .bjorkenX _ => .bjorkenX
  | .inelasticity _ => .inelasticity
  | .Q2 _ => .Q2
  | .q0 _ => .q0
  | .modq _ => .modq
  | .W _ => .W
  | .t _ => .t
  | .baseline _ => .baseline
  | .npiplus _ => .npiplus
  | .npiminus _ => .npiminus
  | .npizero _ => .npizero
  | .nproton _ => .nproton
  | .nneutron _ => .nneutron
  | .ischarm _ => .ischarm
  | .isseaquark _ => .isseaquark
  | .resnum _ => .resnum
  | .xsec _ => .xsec
  | .genweight _ => .genweight
  | .prod_vtx _ => .prod_vtx
  | .parent_dcy_mom _ => .parent_dcy_mom
  | .parent_dcy_mode _ => .parent_dcy_mode
  | .parent_pdg _ => .parent_pdg
  | .parent_dcy_E _ => .parent_dcy_E
  | .imp_weight _ => .imp_weight
  | .generator _ => .generator
  | .genVersion _ => .genVersion
  | .genConfigString _ => .genConfigString
  | .nprim _ => .nprim
  | .prim _ => .prim

/-- Reading a public data member of a record, as a tagged value. -/
def read (r : SRTrueInteraction) : FieldName → FieldValue
  | .isvtxcont => .isvtxcont r.isvtxcont
  | .pdg => .pdg r.pdg
  | .pdgorig => .pdgorig r.pdgorig
  | .iscc => .iscc r.iscc
  | .mode => .mode r.mode
  | .targetPDG => .targetPDG r.targetPDG
  | .hitnuc => .hitnuc r.hitnuc
  | .E => .E r.E
  | .vtx => .vtx r.vtx
  | .momentum => .momentum r.momentum
  | .position => .position r.position
  | .time => .time r.time
  | .bjorkenX => .bjorkenX r.bjorkenX
  | .inelasticity => .inelasticity r.inelasticity
  | .Q2 => .Q2 r.Q2
  | .q0 => .q0 r.q0
  | .modq => .modq r.modq
  | .W => .W r.W
  | .t => .t r.t
  | .baseline => .baseline r.baseline
  | .npiplus => .npiplus r.npiplus
  | .npiminus => .npiminus r.npiminus
  | .npizero => .npizero r.npizero
  | .nproton => .nproton r.nproton
  | .nneutron => .nneutron r.nneutron
  | .ischarm => .ischarm r.ischarm
  | .isseaquark => .isseaquark r.isseaquark
  | .resnum => .resnum r.resnum
  | .xsec => .xsec r.xsec
  | .genweight => .genweight r.genweight
  | .prod_vtx => .prod_vtx r.prod_vtx
  | .parent_dcy_mom => .parent_dcy_mom r.parent_dcy_mom
  | .parent_dcy_mode => .parent_dcy_mode r.parent_dcy_mode
  | .parent_pdg => .parent_pdg r.parent_pdg
  | .parent_dcy_E => .parent_dcy_E r.parent_dcy_E
  | .imp_weight => .imp_weight r.imp_weight
  | .generator => .generator r.generator
  | .genVersion => .genVersion r.genVersion
  | .genConfigString => .genConfigString r.genConfigString
  | .nprim => .nprim r.nprim
  | .prim => .prim r.prim

/-- Direct assignment to one public data member, translating the C++
`r.field = v`: the named member takes the new value, every other member
is kept. -/
def assign (r : SRTrueInteraction) : FieldValue → SRTrueInteraction
  | .isvtxcont v => { r with isvtxcont := v }
  | .pdg v => { r with pdg := v }
  | .pdgorig v => { r with pdgorig := v }
  | .iscc v => { r with iscc := v }
  | .mode v => { r with mode := v }
  | .targetPDG v => { r with targetPDG := v }
  | .hitnuc v => { r with hitnuc := v }
  | .E v => { r with E := v }
  | .vtx v => { r with vtx := v }
  | .momentum v => { r with momentum := v }
  | .position v => { r with position := v }
  | .time v => { r with time := v }
  | .bjorkenX v => { r with bjorkenX := v }
  | .inelasticity v => { r with inelasticity := v }
  | .Q2 v => { r with Q2 := v }
  | .q0 v => { r with q0 := v }
  | .modq v => { r with modq := v }
  | .W v => { r with W := v }
  | .t v => { r with t := v }
  | .baseline v => { r with baseline := v }
  | .npiplus v => { r with npiplus := v }
  | .npiminus v => { r with npiminus := v }
  | .npizero v => { r with npizero := v }
  | .nproton v => { r with nproton := v }
  | .nneutron v => { r with nneutron := v }
  | .ischarm v => { r with ischarm := v }
  | .isseaquark v => { r with isseaquark := v }
  | .resnum v => { r with resnum := v }
  | .xsec v => { r with xsec := v }
  | .genweight v => { r with genweight := v }
  | .prod_vtx v => { r with prod_vtx := v }
  | .parent_dcy_mom v => { r with parent_dcy_mom := v }
  | .parent_dcy_mode v => { r with parent_dcy_mode := v }
  | .parent_pdg v => { r with parent_pdg := v }
  | .parent_dcy_E v => { r with parent_dcy_E := v }
  | .imp_weight v => { r with imp_weight := v }
  | .generator v => { r with generator := v }
  | .genVersion v => { r with genVersion := v }
  | .genConfigString v => { r with genConfigString := v }
  | .nprim v => { r with nprim := v }
  | .prim v => { r with prim := v }

end caf

namespace caf

/-- Claim C1: after default construction every scalar floating-point
field of `SRTrueInteraction` (E, time, bjorkenX, inelasticity, Q2, q0,
modq, W, t, baseline, xsec, genweight, parent_dcy_E, imp_weight)
equals the signaling-NaN sentinel bit pattern. -/
theorem C1_default_floats_are_sentinel :
    defaultInteraction.E = Float32.signalingNaN ∧
    defaultInteraction.time = Float32.signalingNaN ∧
    defaultInteraction.bjorkenX = Float32.signalingNaN ∧
    defaultInteraction.inelasticity = Float32.signalingNaN ∧
    defaultInteraction.Q2 = Float32.signalingNaN ∧
    defaultInteraction.q0 = Float32.signalingNaN ∧
    defaultInteraction.modq = Float32.signalingNaN ∧
    defaultInteraction.W = Float32.signalingNaN ∧
    defaultInteraction.t = Float32.signalingNaN ∧
    defaultInteraction.baseline = Float32.signalingNaN ∧
    defaultInteraction.xsec = Float32.signalingNaN ∧
    defaultInteraction.genweight = Float32.signalingNaN ∧
    defaultInteraction.parent_dcy_E = Float32.signalingNaN ∧
    defaultInteraction.imp_weight = Float32.signalingNaN := by
  decide

/-- Claim C2, counterexample: after default construction
`parent_dcy_mode` equals -1, not zero as the claim states. -/
theorem C2_counterexample :
    defaultInteraction.parent_dcy_mode = -1 ∧
    ¬ defaultInteraction.parent_dcy_mode = 0 := by
  decide

/-- Claim C2, amended: after default construction every plain integer
field except `parent_dcy_mode` (pdg, pdgorig, targetPDG, hitnuc,
resnum, parent_pdg, and the unsigned multiplicity counts) equals zero,
`parent_dcy_mode` equals -1, and the generator-version sequence and
configuration string are empty. -/
theorem C2_default_integers :
    defaultInteraction.pdg = 0 ∧
    defaultInteraction.pdgorig = 0 ∧
    defaultInteraction.targetPDG = 0 ∧
    defaultInteraction.hitnuc = 0 ∧
    defaultInteraction.resnum = 0 ∧
    defaultInteraction.parent_dcy_mode = -1 ∧
    defaultInteraction.parent_pdg = 0 ∧
    defaultInteraction.npiplus = 0 ∧
    defaultInteraction.npiminus = 0 ∧
    defaultInteraction.npizero = 0 ∧
    defaultInteraction.nproton = 0 ∧
    defaultInteraction.nneutron = 0 ∧
    defaultInteraction.genVersion = [] ∧
    defaultInteraction.genConfigString = "" := by
  decide

/-- Claim C3: every `Generator` and `ScatteringMode` tag has exactly the
integer discriminant documented in the spec tables (the spec's
GeneratorA, GeneratorB, GeneratorC are the source's kGENIE, kGIBUU,
kNEUT). -/
theorem C3_enum_discriminants :
    Generator.toInt .kUnknownGenerator = 0 ∧
    Generator.toInt .kGENIE = 1 ∧
    Generator.toInt .kGIBUU = 2 ∧
    Generator.toInt .kNEUT = 3 ∧
    ScatteringMode.toInt .kUnknownMode = -1 ∧
    ScatteringMode.toInt .kQE = 0 ∧
    ScatteringMode.toInt .kRes = 1 ∧
    ScatteringMode.toInt .kDIS = 2 ∧
    ScatteringMode.toInt .kCoh = 3 ∧
    ScatteringMode.toInt .kCohElastic = 4 ∧
    ScatteringMode.toInt .kElectronScattering = 5 ∧
    ScatteringMode.toInt .kIMDAnnihilation = 6 ∧
    ScatteringMode.toInt .kInverseBetaDecay = 7 ∧
    ScatteringMode.toInt .kGlashowResonance = 8 ∧
    ScatteringMode.toInt .kAMNuGamma = 9 ∧
    ScatteringMode.toInt .kMEC = 10 ∧
    ScatteringMode.toInt .kDiffractive = 11 ∧
    ScatteringMode.toInt .kEM = 12 ∧
    ScatteringMode.toInt .kWeakMix = 13 := by
  decide

/-- Claim C4: after default construction all boolean fields are false,
the generator field holds the Unknown generator tag, the mode field
holds the Unknown scattering-mode tag, the daughter sequence is empty
and the declared daughter count is zero. -/
theorem C4_default_bools_enums_daughters :
    defaultInteraction.isvtxcont = false ∧
    defaultInteraction.iscc = false ∧
    defaultInteraction.ischarm = false ∧
    defaultInteraction.isseaquark = false ∧
    defaultInteraction.generator = Generator.toInt .kUnknownGenerator ∧
    defaultInteraction.mode = ScatteringMode.toInt .kUnknownMode ∧
    defaultInteraction.prim = [] ∧
    defaultInteraction.nprim = 0 := by
  decide

/-- Claim C5: the reserved struck-nucleon pair codes are exactly
2000000200 (nn), 2000000201 (np) and 2000000202 (pp); a `hitnuc` value
of 2000000201 decodes to the (n,p) pair, and no integer outside the
three reserved codes decodes to any pair. -/
theorem C5_mec_pair_codes :
    mecPairCode .nn = 2000000200 ∧
    mecPairCode .np = 2000000201 ∧
    mecPairCode .pp = 2000000202 ∧
    mecPairOfCode 2000000201 = some .np ∧
    ∀ c : Int, (mecPairOfCode c).isSome = true ↔
      (c = 2000000200 ∨ c = 2000000201 ∨ c = 2000000202) := by
  refine ⟨rfl, rfl, rfl, rfl, ?_⟩
  intro c
  unfold mecPairOfCode
  split_ifs with h1 h2 h3 <;> simp_all

/-- Claim C7, counterexample: a record whose declared daughter count is
2 while its daughter sequence has length 1 is representable, so the
count/length equality does not hold for every record. -/
theorem C7_counterexample :
    ¬ countMismatch.nprim = (countMismatch.prim.length : Int) := by
  decide

/-- Claim C7, amended: after default construction the declared daughter
count equals the length of the daughter sequence (both are zero); the
type itself does not maintain this equality for arbitrary records, so
it is a validation-level condition, not an enforced invariant. -/
theorem C7_default_count_matches_length :
    defaultInteraction.nprim = (defaultInteraction.prim.length : Int) ∧
    defaultInteraction.nprim = 0 := by
  decide

/-- Claim C9: the five final-state multiplicity fields are unsigned and
therefore non-negative in every record, while the declared daughter
count `nprim` is signed and a negative count is representable. -/
theorem C9_multiplicities_unsigned_nprim_signed :
    (∀ r : SRTrueInteraction,
      0 ≤ (r.npiplus : Int) ∧ 0 ≤ (r.npiminus : Int) ∧
      0 ≤ (r.npizero : Int) ∧ 0 ≤ (r.nproton : Int) ∧
      0 ≤ (r.nneutron : Int)) ∧
    negPrimCount.nprim < 0 := by
  refine ⟨fun r => ⟨?_, ?_, ?_, ?_, ?_⟩, by decide⟩ <;>
    exact Int.natCast_nonneg _

/-- Claim C10: the sentinel is a NaN, IEEE equality of the sentinel with
itself is false, and for every floating-point field of the
default-constructed record the equality comparison against the sentinel
evaluates to false while the is-NaN classification evaluates to true. -/
theorem C10_sentinel_not_self_equal :
    Float32.isNaN Float32.signalingNaN = true ∧
    Float32.beq Float32.signalingNaN Float32.signalingNaN = false ∧
    Float32.beq defaultInteraction.E Float32.signalingNaN = false ∧
    Float32.beq defaultInteraction.time Float32.signalingNaN = false ∧
    Float32.beq defaultInteraction.bjorkenX Float32.signalingNaN = false ∧
    Float32.beq defaultInteraction.inelasticity Float32.signalingNaN = false ∧
    Float32.beq defaultInteraction.Q2 Float32.signalingNaN = false ∧
    Float32.beq defaultInteraction.q0 Float32.signalingNaN = false ∧
    Float32.beq defaultInteraction.modq Float32.signalingNaN = false ∧
    Float32.beq defaultInteraction.W Float32.signalingNaN = false ∧
    Float32.beq defaultInteraction.t Float32.signalingNaN = false ∧
    Float32.beq defaultInteraction.baseline Float32.signalingNaN = false ∧
    Float32.beq defaultInteraction.xsec Float32.signalingNaN = false ∧
    Float32.beq defaultInteraction.genweight Float32.signalingNaN = false ∧
    Float32.beq defaultInteraction.parent_dcy_E Float32.signalingNaN = false ∧
    Float32.beq defaultInteraction.imp_weight Float32.signalingNaN = false ∧
    Float32.isNaN defaultInteraction.E = true ∧
    Float32.isNaN defaultInteraction.time = true ∧
    Float32.isNaN defaultInteraction.bjorkenX = true ∧
    Float32.isNaN defaultInteraction.inelasticity = true ∧
    Float32.isNaN defaultInteraction.Q2 = true ∧
    Float32.isNaN defaultInteraction.q0 = true ∧
    Float32.isNaN defaultInteraction.modq = true ∧
    Float32.isNaN defaultInteraction.W = true ∧
    Float32.isNaN defaultInteraction.t = true ∧
    Float32.isNaN defaultInteraction.baseline = true ∧
    Float32.isNaN defaultInteraction.xsec = true ∧
    Float32.isNaN defaultInteraction.genweight = true ∧
    Float32.isNaN defaultInteraction.parent_dcy_E = true ∧
    Float32.isNaN defaultInteraction.imp_weight = true := by
  decide

/-- Claim C6: no operation of the record fails — assignment to any field
always succeeds and stores exactly the assigned value (the total
function `assign` models it, there is no error path), and malformed
states are representable without any error: a declared daughter count
of 2 with a single-entry daughter sequence, and a scattering-mode field
holding the integer 99, which is outside the documented tag range. -/
theorem C6_total_operations_malformed_representable :
    (∀ (r : SRTrueInteraction) (a : FieldValue),
      read (assign r a) (target a) = a) ∧
    (countMismatch.nprim = 2 ∧ countMismatch.prim.length = 1) ∧
    (outOfRangeMode.mode = 99 ∧
      ∀ m : ScatteringMode, ScatteringMode.toInt m ≠ 99) := by
  refine ⟨fun r a => ?_, by decide, by decide, fun m => ?_⟩
  · cases a <;> rfl
  · cases m <;> decide

/-- Claim C8: assignment to a single field has no effect beyond the
named field — for every record, every assigned value and every other
field, reading that other field after the assignment yields its
previous value. -/
theorem C8_assignment_frame (r : SRTrueInteraction) (a : FieldValue)
    (f : FieldName) (h : f ≠ target a) :
    read (assign r a) f = read r f := by
  cases a <;> cases f <;> first | rfl | exact absurd rfl h

/-- Witness for claim C8: assigning the energy field of the default
record leaves the time field unchanged. -/
theorem C8_assignment_frame_witness :
    read (assign defaultInteraction (FieldValue.E ⟨0⟩)) FieldName.time =
      read defaultInteraction FieldName.time :=
  C8_assignment_frame defaultInteraction (FieldValue.E ⟨0⟩)
    FieldName.time (by decide)

end caf
